import Mathlib

/-!
Verification development for the car-transfer-bot repository.

The repository is a WhatsApp bot that walks a user through choosing a used
vehicle and computing Spain's vehicle-transfer tax (ITP) for a region.  The
development below shallowly embeds:

* the Convex backend mutation `calculateTransferTax` together with its static
  regional rate table (`src/unnamed/part_002`, the convex `cars.ts` module),
* the HTTP route `POST /api/calculateTransferTax` (`src/convex/http.ts`),
* the dialogue state machine of the bot (`src/bot.ts`), with the outcomes of
  the external calls (vehicle search, tax calculation) passed in explicitly.

JavaScript numbers are modelled as exact rationals (`ℚ`); `Math.round` is
modelled as `fun x => floor (x + 1/2)`, which is its mathematical behaviour on
the non-negative values arising here.  Message texts that carry no logic are
modelled as tags of an inductive `Reply` type; each tag corresponds to exactly
one reply site in the source.
-/

namespace CarBot

/-! ## Numeric helpers (JavaScript semantics) -/

/-- JavaScript `Math.round x = floor (x + 0.5)`. -/
def jsRound (q : ℚ) : ℤ :=
  ⌊q + 1/2⌋

/-- The source computes `Math.round(v * 100) / 100` to round to cents. -/
def round2 (q : ℚ) : ℚ :=
  ((jsRound (q * 100) : ℚ)) / 100

/-- Value of a list of decimal digit characters. -/
def digitsVal (cs : List Char) : ℕ :=
  cs.foldl (fun a c => a * 10 + (c.toNat - 48)) 0

/-- Value of a hexadecimal digit character, if it is one. -/
def hexVal (c : Char) : Option ℕ :=
  if 48 ≤ c.toNat ∧ c.toNat ≤ 57 then some (c.toNat - 48)
  else if 97 ≤ c.toNat ∧ c.toNat ≤ 102 then some (c.toNat - 87)
  else if 65 ≤ c.toNat ∧ c.toNat ≤ 70 then some (c.toNat - 55)
  else none

/-- Whether a character is a hexadecimal digit. -/
def isHexDigitChar (c : Char) : Bool :=
  (hexVal c).isSome

/-- Value of a list of hexadecimal digit characters. -/
def hexDigitsVal (cs : List Char) : ℕ :=
  cs.foldl (fun a c => a * 16 + ((hexVal c).getD 0)) 0

/-- Unsigned part of JavaScript `parseInt` (radix 10 with the `0x` prefix
taken as hexadecimal); `none` models `NaN`. -/
def jsParseIntCore (cs : List Char) : Option ℕ :=
  match cs with
  | '0' :: x :: rest =>
    if x = 'x' ∨ x = 'X' then
      let ds := rest.takeWhile isHexDigitChar
      if ds.isEmpty then none else some (hexDigitsVal ds)
    else
      some (digitsVal (('0' :: x :: rest).takeWhile Char.isDigit))
  | _ =>
    let ds := cs.takeWhile Char.isDigit
    if ds.isEmpty then none else some (digitsVal ds)

/-- JavaScript `parseInt(s)`: optional sign, then leading digits; `none`
models `NaN` (no digits at all). -/
def jsParseInt (s : String) : Option ℤ :=
  let cs := s.toList.dropWhile (fun c => c = ' ')
  match cs with
  | '-' :: rest => (jsParseIntCore rest).map (fun n => -(n : ℤ))
  | '+' :: rest => (jsParseIntCore rest).map (fun n => (n : ℤ))
  | rest => (jsParseIntCore rest).map (fun n => (n : ℤ))

/-- JavaScript `o || d` for an optional string (`undefined` and `""` are
falsy). -/
def jsOrStr (o : Option String) (d : String) : String :=
  match o with
  | some s => if s = "" then d else s
  | none => d

/-- JavaScript `o || d` for an optional number (`undefined` and `0` are
falsy). -/
def jsOrInt (o : Option ℤ) (d : ℤ) : ℤ :=
  match o with
  | some y => if y = 0 then d else y
  | none => d

/-- Substring test: `strIncludes hay needle` models `hay.includes(needle)`. -/
def strIncludes (hay needle : String) : Bool :=
  hay.toList.tails.any (fun t => needle.toList.isPrefixOf t)

/-! ## Convex backend: the `cars.ts` module (`src/unnamed/part_002`) -/

/-- A row of the `cars` table (convex schema `src/unnamed/part_000`). -/
structure DbCar where
  id : ℕ
  maker : String
  model : String
  year : ℤ
  fiscalPower : ℚ
  fiscalValue : ℚ
  fuelType : String
deriving DecidableEq

/-- A row of the `transfers` table (append-only audit log). -/
structure Transfer where
  carId : ℕ
  buyerRegion : String
  calculatedTax : ℚ
  taxRate : ℚ
  timestamp : ℤ
deriving DecidableEq

/-- The convex database: the two tables the module touches. -/
structure DB where
  cars : List DbCar
  transfers : List Transfer
deriving DecidableEq

/-- `ctx.db.get(carId)` on the `cars` table. -/
def dbGet (db : DB) (carId : ℕ) : Option DbCar :=
  db.cars.find? (fun c => c.id == carId)

/-- Base tax rates by autonomous community (REGIONAL_TAX_RATES).  The
source's decimal literals are written as exact rationals via `mkRat`
(`mkRat 4 100` is `0.04`, `mkRat 55 1000` is `0.055`). -/
def REGIONAL_TAX_RATES : List (String × ℚ) :=
  [("Andalucía", mkRat 4 100), ("Aragón", mkRat 4 100), ("Asturias", mkRat 4 100),
   ("Baleares", mkRat 4 100), ("Canarias", mkRat 55 1000), ("Cantabria", mkRat 8 100),
   ("Castilla-La Mancha", mkRat 6 100), ("Castilla y León", mkRat 5 100),
   ("Cataluña", mkRat 5 100), ("Ceuta", mkRat 4 100), ("Comunidad Valenciana", mkRat 6 100),
   ("Extremadura", mkRat 6 100), ("Galicia", mkRat 3 100), ("La Rioja", mkRat 4 100),
   ("Madrid", mkRat 4 100), ("Melilla", mkRat 4 100), ("Murcia", mkRat 4 100),
   ("Navarra", mkRat 4 100), ("País Vasco", mkRat 4 100)]

/-- Regions with higher rates for high-power vehicles (>15 CV). -/
def HIGH_POWER_REGIONS : List String :=
  ["Andalucía", "Asturias", "Baleares", "Castilla y León"]

/-- The fixed high-power rate (8%). -/
def HIGH_POWER_TAX_RATE : ℚ := mkRat 8 100

/-- The fiscal-power threshold (strict) for the surcharge. -/
def HIGH_POWER_CV_THRESHOLD : ℚ := 15

/-- Default rate if region not specified. -/
def DEFAULT_TAX_RATE : ℚ := mkRat 4 100

/-- `REGIONAL_TAX_RATES[region] || DEFAULT_TAX_RATE` (a stored rate of `0`
would be falsy in JavaScript, hence the explicit test). -/
def lookupRate (region : String) : ℚ :=
  match REGIONAL_TAX_RATES.lookup region with
  | some r => if r = 0 then DEFAULT_TAX_RATE else r
  | none => DEFAULT_TAX_RATE

/-- The rate after the high-power surcharge step (source lines 91-96):
base-rate lookup, then the surcharge override. -/
def rateAfterSurcharge (region : String) (fiscalPower : ℚ) : ℚ :=
  if HIGH_POWER_REGIONS.contains region ∧ fiscalPower > HIGH_POWER_CV_THRESHOLD then
    HIGH_POWER_TAX_RATE
  else lookupRate region

/-- The fully resolved rate (source lines 91-101): surcharge step, then the
Ceuta/Melilla resident discount (`taxRate * 0.5`). -/
def resolveRate (region : String) (fiscalPower : ℚ) (isResident : Bool) : ℚ :=
  let t := rateAfterSurcharge region fiscalPower
  if (region = "Ceuta" ∨ region = "Melilla") ∧ isResident then t * (1/2) else t

/-- The high-power note pushed by the source (interpolating the fiscal
power; the rational is rendered with Lean's `toString`). -/
def highPowerNote (fiscalPower : ℚ) : String :=
  "⚠️ Aplica tarifa alta (>15 CV): " ++ toString fiscalPower ++ " CV fiscales"

/-- The resident-discount note pushed by the source. -/
def residentNote : String :=
  "✅ Aplicado descuento del 50% por residencia"

/-- The notes list built by the source (lines 116-122): the same two
conditions as in the rate resolution, in the same order. -/
def resolveNotes (region : String) (fiscalPower : ℚ) (isResident : Bool) : List String :=
  (if HIGH_POWER_REGIONS.contains region ∧ fiscalPower > HIGH_POWER_CV_THRESHOLD then
    [highPowerNote fiscalPower] else [])
  ++ (if (region = "Ceuta" ∨ region = "Melilla") ∧ isResident then [residentNote] else [])

/-- `(x).toFixed(1)` for the exact one-decimal values arising here. -/
def toFixed1 (x : ℚ) : String :=
  let t : ℤ := jsRound (x * 10)
  toString (Int.fdiv t 10) ++ "." ++ toString (Int.emod t 10)

/-- `(taxRate * 100).toFixed(1) + "%"`. -/
def formatPercent1 (r : ℚ) : String :=
  toFixed1 (r * 100) ++ "%"

/-- The value returned by the `calculateTransferTax` mutation. -/
structure TransferResult where
  car : DbCar
  region : String
  taxRate : String
  calculatedTax : ℚ
  fiscalValue : ℚ
  notes : Option (List String)
deriving DecidableEq

/-- The `calculateTransferTax` mutation (source lines 78-133).  The pair's
second component is the database after the call; a thrown error aborts the
convex transaction, so the error branch returns the database unchanged.
`now` stands for `Date.now()`. -/
def calculateTransferTax (db : DB) (carId : ℕ) (regionArg : Option String)
    (isResidentArg : Option Bool) (now : ℤ) : Except String TransferResult × DB :=
  match dbGet db carId with
  | none => (.error "Car not found", db)
  | some car =>
    let region := jsOrStr regionArg "Madrid"
    let isResident := isResidentArg.getD false
    let taxRate := resolveRate region car.fiscalPower isResident
    let calculatedTax := round2 (car.fiscalValue * taxRate)
    let db' : DB :=
      { db with transfers := db.transfers ++
          [{ carId := carId, buyerRegion := region, calculatedTax := calculatedTax,
             taxRate := taxRate, timestamp := now }] }
    let notes := resolveNotes region car.fiscalPower isResident
    (.ok { car := car, region := region, taxRate := formatPercent1 taxRate,
           calculatedTax := calculatedTax, fiscalValue := car.fiscalValue,
           notes := if notes.length > 0 then some notes else none }, db')

/-! ## HTTP transport: `POST /api/calculateTransferTax` (`src/convex/http.ts`) -/

/-- The JSON body of the calculate request as sent by the bot. -/
structure CalcRequestBody where
  carId : Option ℕ
  region : Option String
  isResident : Option Bool
deriving DecidableEq

/-- Outcome of the HTTP route. -/
inductive HttpResp where
  | ok (result : TransferResult)
  | badRequest
  | serverError
deriving DecidableEq

/-- The `POST /api/calculateTransferTax` route handler.  The source
destructures only `carId` and `region` from the body
(`const { carId, region } = body;`) and invokes the mutation with just those
two fields, so the mutation sees no `isResident` argument.  A thrown
mutation error is caught and surfaced as a 500 response with the database
rolled back. -/
def httpCalculateTransferTax (db : DB) (now : ℤ) (body : CalcRequestBody) :
    HttpResp × DB :=
  match body.carId with
  | none => (.badRequest, db)
  | some carId =>
    match calculateTransferTax db carId body.region none now with
    | (.ok r, db') => (.ok r, db')
    | (.error _, _) => (.serverError, db)

/-- The formatted rate of a successful HTTP response, if any. -/
def respTaxRate (r : HttpResp) : Option String :=
  match r with
  | .ok result => some result.taxRate
  | _ => none

/-- The formatted rate of a successful mutation result, if any. -/
def exceptTaxRate (e : Except String TransferResult) : Option String :=
  match e with
  | .ok result => some result.taxRate
  | .error _ => none

/-- The computed tax of a successful mutation result, if any. -/
def exceptTax (e : Except String TransferResult) : Option ℚ :=
  match e with
  | .ok result => some result.calculatedTax
  | .error _ => none

/-! ## The bot's dialogue state machine (`src/bot.ts`) -/

/-- The car objects the bot stores in a session (shape of the JSON rows the
search endpoint returns to the bot). -/
structure Car where
  id : ℕ
  model : String
  year : ℤ
  fiscalValue : ℚ
  fiscalPower : ℚ
  maker : Option String
deriving DecidableEq

/-- The `step` labels of a `UserSession`. -/
inductive Step where
  | welcome
  | maker
  | year
  | model_selection
  | region
  | resident_check
  | complete
deriving DecidableEq

/-- The bot's `UserSession` record. -/
structure Session where
  step : Step
  maker : Option String := none
  year : Option ℤ := none
  cars : Option (List Car) := none
  selectedCarId : Option ℕ := none
  region : Option String := none
deriving DecidableEq

/-- Effect of one message on the session store for the sender's key:
no write at all, `sessions.set`, or `sessions.delete`. -/
inductive SessEff where
  | keep
  | put (s : Session)
  | del
deriving DecidableEq

/-- One displayed entry of the bot's region table. -/
structure RegionEntry where
  name : String
  rate : String
  note : String
deriving DecidableEq

/-- Fallback entry for indexed access (the source indexes unchecked after a
bounds test). -/
def dummyRegion : RegionEntry := { name := "", rate := "", note := "" }

/-- Fallback car for indexed access (the source indexes unchecked after a
bounds test). -/
def dummyCar : Car :=
  { id := 0, model := "", year := 0, fiscalValue := 0, fiscalPower := 0, maker := none }

/-- The bot's SPANISH_REGIONS display table, in source order
(`src/bot.ts` lines 23-43). -/
def SPANISH_REGIONS : List RegionEntry :=
  [{ name := "Galicia", rate := "3%", note := "⭐ ¡Más barato!" },
   { name := "Andalucía", rate := "4%", note := "(8% si >15 CV)" },
   { name := "Aragón", rate := "4%", note := "" },
   { name := "Asturias", rate := "4%", note := "(8% si >15 CV)" },
   { name := "Baleares", rate := "4%", note := "(8% si >15 CV)" },
   { name := "La Rioja", rate := "4%", note := "" },
   { name := "Madrid", rate := "4%", note := "" },
   { name := "Murcia", rate := "4%", note := "" },
   { name := "Navarra", rate := "4%", note := "" },
   { name := "País Vasco", rate := "4%", note := "" },
   { name := "Ceuta", rate := "4%", note := "(2% residentes)" },
   { name := "Melilla", rate := "4%", note := "(2% residentes)" },
   { name := "Castilla y León", rate := "5%", note := "(8% si >15 CV)" },
   { name := "Canarias", rate := "5.5%", note := "" },
   { name := "Cataluña", rate := "5%", note := "" },
   { name := "Castilla-La Mancha", rate := "6%", note := "" },
   { name := "Comunidad Valenciana", rate := "6%", note := "(8% si >2000cc)" },
   { name := "Extremadura", rate := "6%", note := "" },
   { name := "Cantabria", rate := "8%", note := "⚠️ Más caro" }]

/-- Numeric value of a displayed rate string, in tenths of a percent
("3%" is 30, "5.5%" is 55). -/
def rateTenths (s : String) : ℕ :=
  let cs := s.toList
  let whole := cs.takeWhile Char.isDigit
  match cs.dropWhile Char.isDigit with
  | '.' :: d :: _ => digitsVal whole * 10 + (d.toNat - 48)
  | _ => digitsVal whole * 10

/-- The displayed rates of SPANISH_REGIONS as numbers, in display order. -/
def ratesTenthsList : List ℕ :=
  SPANISH_REGIONS.map (fun r => rateTenths r.rate)

/-- Reset command keyword set. -/
def resetWords : List String := ["reset", "inicio", "restart", "empezar"]

/-- Help command keyword set. -/
def helpWords : List String := ["ayuda", "help"]

/-- Rates command keyword set. -/
def ratesWords : List String := ["tasas", "precios", "tarifas"]

/-- Affirmation keyword set for the resident check. -/
def affirmWords : List String := ["si", "sí", "yes", "s"]

/-- Whether the (lowercased, trimmed) text is one of the globally
intercepted commands. -/
def isCommandWord (text : String) : Bool :=
  resetWords.contains text || helpWords.contains text || ratesWords.contains text

/-- The replies the bot can send.  Each tag stands for exactly one reply site
of `src/bot.ts`; texts that carry no control-flow content are elided. -/
inductive Reply where
  | welcomeMsg
  | helpMsg
  | ratesMsg
  | makerSaved (maker : String)
  | yearInvalid
  | searchError
  | noCarsFound
  | askRegion (car : Car)
  | carOptions (shown : List Car) (total : ℕ)
  | modelInvalid (len : ℕ)
  | carSelected (car : Car)
  | regionUnknown
  | residentPrompt (region : String)
  | calcResult (r : TransferResult)
  | calcError
  | defaultPrompt
deriving DecidableEq

/-- Outcome of the bot's call to `POST /api/calculateTransferTax`:
`throwBefore` models `fetch` or `response.json()` throwing (the catch fires
before the session is touched); `body v` models a parsed JSON body, where
`some r` has the shape of a `TransferResult` and `none` does not (for
example the `{"error": ...}` body of a 500 response, in which case reading
`result.car.maker` throws after the session was already deleted). -/
inductive CalcOutcome where
  | throwBefore
  | body (r : Option TransferResult)
deriving DecidableEq

/-- The `calculateAndReply` helper (`src/bot.ts` lines 247-298).  It runs the
calculation call, then `sessions.delete`, then builds the success message
from the result; any exception is caught and answered with the generic
error message.  The session key's effect is therefore `keep` when the call
itself throws, but `del` already happened when the parsed body turns out
not to carry a result. -/
def calculateAndReply (_selectedCarId : Option ℕ) (_region : Option String)
    (_isResident : Bool) (co : CalcOutcome) : SessEff × Reply :=
  match co with
  | .throwBefore => (.keep, .calcError)
  | .body none => (.del, .calcError)
  | .body (some r) => (.del, .calcResult r)

/-- The `welcome`/`maker` arm: store the maker, move to `year`
(`sessions.set(phone, { step: "year", maker: text })`, a fresh record). -/
def handleMaker (text : String) : SessEff × Reply :=
  (.put { step := .year, maker := some text }, .makerSaved text)

/-- The year-validation test of the `year` arm: `isNaN(year) || year < 1990
|| year > 2026` applied to `parseInt(text)`. -/
def yearNotValid (text : String) : Bool :=
  match jsParseInt text with
  | none => true
  | some y => if y < 1990 ∨ y > 2026 then true else false

/-- The `year` arm (`src/bot.ts` lines 102-168).  `searchOutcome` is the
outcome of the `GET /api/searchCars` call: `Except.error` models the fetch
throwing, `Except.ok` the decoded car list. -/
def handleYear (session : Session) (text : String)
    (searchOutcome : Except Unit (List Car)) : SessEff × Reply :=
  let yearVal : Option ℤ := if text = "saltar" then none else jsParseInt text
  if text ≠ "saltar" ∧ yearNotValid text then
    (.keep, .yearInvalid)
  else
    match searchOutcome with
    | .error _ => (.keep, .searchError)
    | .ok [] => (.put { step := .maker }, .noCarsFound)
    | .ok [c] =>
      let s' := { session with step := Step.region, selectedCarId := some c.id, year := some (jsOrInt yearVal c.year) }
      (.put s', .askRegion c)
    | .ok (c :: c' :: rest) =>
      let cars := c :: c' :: rest
      let s' := { session with step := Step.model_selection, cars := some (cars.take 10), year := some (jsOrInt yearVal c.year) }
      (.put s', .carOptions (cars.take 10) cars.length)

/-- The `model_selection` arm (`src/bot.ts` lines 170-190). -/
def handleModelSelection (session : Session) (text : String) : SessEff × Reply :=
  let len := (session.cars.getD []).length
  match jsParseInt text with
  | none => (.keep, .modelInvalid len)
  | some n =>
    if n < 1 ∨ n > (len : ℤ) then (.keep, .modelInvalid len)
    else
      let selectedCar := (session.cars.getD []).getD (n - 1).toNat dummyCar
      (.put { session with step := .region, selectedCarId := some selectedCar.id },
       .carSelected selectedCar)

/-- The region-resolution part of the `region` arm (`src/bot.ts` lines
193-209): first a numeric 1-based index into SPANISH_REGIONS, then the
substring match in table order; the empty string stands for the source's
unassigned `region` variable (no region name is empty). -/
def regionOfText (text : String) : String :=
  let byNum : String :=
    match jsParseInt text with
    | some n =>
      if 1 ≤ n ∧ n ≤ (SPANISH_REGIONS.length : ℤ) then
        (SPANISH_REGIONS.getD (n - 1).toNat dummyRegion).name
      else ""
    | none => ""
  if byNum ≠ "" then byNum
  else
    match SPANISH_REGIONS.find? (fun r =>
        strIncludes r.name.toLower text || strIncludes text r.name.toLower) with
    | some r => r.name
    | none => ""

/-- The `region` arm (`src/bot.ts` lines 192-230): no match re-prompts;
Ceuta/Melilla go to the resident check; any other region completes via
`calculateAndReply`. -/
def handleRegion (session : Session) (text : String) (co : CalcOutcome) :
    SessEff × Reply :=
  let region := regionOfText text
  if region = "" then (.keep, .regionUnknown)
  else if region = "Ceuta" ∨ region = "Melilla" then
    (.put { session with step := .resident_check, region := some region },
     .residentPrompt region)
  else
    calculateAndReply session.selectedCarId (some region) false co

/-- The `resident_check` arm (`src/bot.ts` lines 232-234). -/
def handleResidentCheck (session : Session) (text : String) (co : CalcOutcome) :
    SessEff × Reply :=
  let isResident := affirmWords.contains text
  calculateAndReply session.selectedCarId session.region isResident co

/-- The defensive `default` arm of the step switch. -/
def handleDefault : SessEff × Reply :=
  (.put { step := .maker }, .defaultPrompt)

/-- The step dispatch of the `onMessage` switch. -/
def dispatch (session : Session) (text : String)
    (so : Except Unit (List Car)) (co : CalcOutcome) : SessEff × Reply :=
  match session.step with
  | .welcome => handleMaker text
  | .maker => handleMaker text
  | .year => handleYear session text so
  | .model_selection => handleModelSelection session text
  | .region => handleRegion session text co
  | .resident_check => handleResidentCheck session text co
  | .complete => handleDefault

/-- One inbound message (`src/bot.ts` lines 46-244).  `text` is the message
text after the source's `toLowerCase().trim()`; `sessionBefore` is the
stored session for the sender's key (`none` when absent, replaced by
`{ step: "welcome" }`); `so` and `co` are the outcomes of the external
search and calculation calls, should the transition perform them.  Global
commands are intercepted before step dispatch. -/
def onMessage (sessionBefore : Option Session) (text : String)
    (so : Except Unit (List Car)) (co : CalcOutcome) : SessEff × Reply :=
  let session := sessionBefore.getD { step := .welcome }
  if resetWords.contains text then (.del, .welcomeMsg)
  else if helpWords.contains text then (.keep, .helpMsg)
  else if ratesWords.contains text then (.keep, .ratesMsg)
  else dispatch session text so co

/-- A session's candidate list, when present, is bounded by 10 entries. -/
def carsOK (s : Session) : Prop :=
  ∀ cs, s.cars = some cs → cs.length ≤ 10

/-- The computed tax of a successful HTTP response, if any. -/
def respTax (r : HttpResp) : Option ℚ :=
  match r with
  | .ok result => some result.calculatedTax
  | _ => none

/-- Pairwise non-decreasing test on a list of numbers. -/
def nondecreasingB : List ℕ → Bool
  | [] => true
  | [_] => true
  | a :: b :: rest => decide (a ≤ b) && nondecreasingB (b :: rest)

/-- The car the `model_selection` arm picks for a 1-based numeric input `n`:
`session.cars![n - 1]`. -/
def chosenCar (session : Session) (n : ℤ) : Car :=
  (session.cars.getD []).getD (n - 1).toNat dummyCar

/-- The session written by a successful model selection. -/
def selectSession (session : Session) (n : ℤ) : Session :=
  { session with step := Step.region, selectedCarId := some (chosenCar session n).id }

/-- What one message's session-store effect must satisfy for the candidate
list to stay bounded: any written session has a bounded list, and its list
is the previous one, absent, or the first ten search results. -/
def effCarsOK (before : Session) (so : Except Unit (List Car)) : SessEff → Prop
  | SessEff.keep => True
  | SessEff.del => True
  | SessEff.put s' =>
      carsOK s' ∧ (s'.cars = before.cars ∨ s'.cars = none ∨ ∃ cs, so = Except.ok cs ∧ s'.cars = some (cs.take 10))

/-! ## Sample data used by concrete evaluations -/

/-- A sample stored car (fiscal power 12, fiscal value 18000). -/
def demoCar : DbCar :=
  { id := 1, maker := "toyota", model := "Corolla", year := 2020, fiscalPower := 12,
    fiscalValue := 18000, fuelType := "hybrid" }

/-- A database holding just `demoCar`. -/
def demoDB : DB := { cars := [demoCar], transfers := [] }

/-- The request body the bot sends after a Ceuta resident answers yes. -/
def ceutaResidentBody : CalcRequestBody :=
  { carId := some 1, region := some "Ceuta", isResident := some true }

/-- A sample car list entry for model selection. -/
def msCarA : Car :=
  { id := 5, model := "Corolla", year := 2020, fiscalValue := 18000, fiscalPower := 12,
    maker := some "toyota" }

/-- A second sample car list entry for model selection. -/
def msCarB : Car :=
  { id := 7, model := "Yaris", year := 2019, fiscalValue := 14000, fiscalPower := 9,
    maker := some "toyota" }

/-- A session waiting at the model-selection step with two candidates. -/
def msSession : Session :=
  { step := Step.model_selection, maker := some "toyota", cars := some [msCarA, msCarB] }

/-! ## Helper lemmas -/

/-- Math.round of an integer value is that integer. -/
theorem jsRound_intCast (n : ℤ) : jsRound ((n : ℚ)) = n := by
  rw [jsRound, Int.floor_int_add]
  norm_num

/-- Evaluation rule for `round2` when the value in cents is an integer. -/
theorem round2_eval (q : ℚ) (n : ℤ) (h : q * 100 = (n:ℚ)) : round2 q = (n:ℚ)/100 := by
  rw [round2, h, jsRound_intCast]

/-- Evaluation rule for the percent formatting. -/
theorem formatPercent1_eval (r : ℚ) (n : ℤ) (h : r * 100 * 10 = (n:ℚ)) :
    formatPercent1 r = toString (Int.fdiv n 10) ++ "." ++ toString (Int.emod n 10) ++ "%" := by
  rw [formatPercent1, toFixed1, h, jsRound_intCast]

/-- A non-command text is in none of the three keyword sets. -/
theorem command_decomp (text : String) (h : isCommandWord text = false) :
    resetWords.contains text = false ∧ helpWords.contains text = false
    ∧ ratesWords.contains text = false := by
  have h' := h
  simp only [isCommandWord, Bool.or_eq_false_iff] at h'
  exact ⟨h'.1.1, h'.1.2, h'.2⟩

/-- Membership in the high-power region list, by cases. -/
theorem hp_mem (region : String) (h : HIGH_POWER_REGIONS.contains region = true) :
    region = "Andalucía" ∨ region = "Asturias" ∨ region = "Baleares" ∨ region = "Castilla y León" := by
  by_cases e1 : region = "Andalucía"
  · exact Or.inl e1
  by_cases e2 : region = "Asturias"
  · exact Or.inr (Or.inl e2)
  by_cases e3 : region = "Baleares"
  · exact Or.inr (Or.inr (Or.inl e3))
  by_cases e4 : region = "Castilla y León"
  · exact Or.inr (Or.inr (Or.inr e4))
  exfalso
  simp only [HIGH_POWER_REGIONS, List.contains, List.elem] at h
  rw [beq_eq_false_iff_ne.mpr e1, beq_eq_false_iff_ne.mpr e2, beq_eq_false_iff_ne.mpr e3,
    beq_eq_false_iff_ne.mpr e4] at h
  simp at h

/-- The maker arm writes a fresh session with no candidate list. -/
theorem handleMaker_carsOK (before : Session) (so : Except Unit (List Car)) (text : String) :
    effCarsOK before so (handleMaker text).1 :=
  ⟨fun _ hcs => Option.noConfusion hcs, Or.inr (Or.inl rfl)⟩

/-- The year arm only ever stores the first ten search results. -/
theorem handleYear_carsOK (session : Session) (text : String) (so : Except Unit (List Car))
    (hok : carsOK session) : effCarsOK session so (handleYear session text so).1 := by
  by_cases hc : text ≠ "saltar" ∧ yearNotValid text = true
  · simp only [handleYear, if_pos hc]
    trivial
  · simp only [handleYear, if_neg hc]
    cases so with
    | error e => trivial
    | ok cars =>
      rcases cars with _ | ⟨c, _ | ⟨c', rest⟩⟩
      · exact ⟨fun _ hcs => Option.noConfusion hcs, Or.inr (Or.inl rfl)⟩
      · exact ⟨hok, Or.inl rfl⟩
      · refine ⟨?_, Or.inr (Or.inr ⟨_, rfl, rfl⟩)⟩
        intro cs hcs
        injection hcs with hcs
        rw [← hcs]
        exact List.length_take_le 10 _

/-- The model-selection arm keeps the stored candidate list unchanged. -/
theorem handleModelSelection_carsOK (session : Session) (text : String)
    (so : Except Unit (List Car)) (hok : carsOK session) :
    effCarsOK session so (handleModelSelection session text).1 := by
  cases hp : jsParseInt text with
  | none =>
    simp only [handleModelSelection, hp]
    trivial
  | some n =>
    simp only [handleModelSelection, hp]
    by_cases hcond : n < 1 ∨ n > (((session.cars.getD []).length : ℤ))
    · rw [if_pos hcond]
      trivial
    · rw [if_neg hcond]
      exact ⟨hok, Or.inl rfl⟩

/-- The region arm keeps the stored candidate list unchanged. -/
theorem handleRegion_carsOK (session : Session) (text : String) (co : CalcOutcome)
    (so : Except Unit (List Car)) (hok : carsOK session) :
    effCarsOK session so (handleRegion session text co).1 := by
  simp only [handleRegion]
  by_cases hr : regionOfText text = ""
  · rw [if_pos hr]
    trivial
  · rw [if_neg hr]
    by_cases hcm : regionOfText text = "Ceuta" ∨ regionOfText text = "Melilla"
    · rw [if_pos hcm]
      exact ⟨hok, Or.inl rfl⟩
    · rw [if_neg hcm]
      cases co with
      | throwBefore => trivial
      | body r => cases r <;> trivial

/-- The resident-check arm never writes a session. -/
theorem handleResidentCheck_carsOK (session : Session) (text : String) (co : CalcOutcome)
    (so : Except Unit (List Car)) :
    effCarsOK session so (handleResidentCheck session text co).1 := by
  simp only [handleResidentCheck]
  cases co with
  | throwBefore => trivial
  | body r => cases r <;> trivial

/-- The defensive default arm writes a fresh session. -/
theorem handleDefault_carsOK (before : Session) (so : Except Unit (List Car)) :
    effCarsOK before so handleDefault.1 :=
  ⟨fun _ hcs => Option.noConfusion hcs, Or.inr (Or.inl rfl)⟩

/-- One message preserves the bounded-candidate-list discipline. -/
theorem onMessage_carsOK (session : Session) (text : String)
    (so : Except Unit (List Car)) (co : CalcOutcome) (hok : carsOK session) :
    effCarsOK session so (onMessage (some session) text so co).1 := by
  rw [onMessage]
  simp only [Option.getD]
  split
  · trivial
  · split
    · trivial
    · split
      · trivial
      · rw [dispatch]
        cases hstep : session.step
        · exact handleMaker_carsOK session so text
        · exact handleMaker_carsOK session so text
        · exact handleYear_carsOK session text so hok
        · exact handleModelSelection_carsOK session text so hok
        · exact handleRegion_carsOK session text co so hok
        · exact handleResidentCheck_carsOK session text co so
        · exact handleDefault_carsOK session so

/-! ## Claim theorems -/

/-- Claim C1: the claim states that the isResident flag of a POST
/api/calculateTransferTax body is forwarded to the tax computation, so that
a Ceuta request with isResident true resolves to the halved 2% rate
end-to-end, equal to invoking the mutation directly.  The route in fact
destructures only carId and region from the body, so end-to-end the rate
stays 4.0% (tax 720) while the direct mutation call with the same three
arguments yields 2.0% (tax 360). -/
theorem http_route_drops_resident_flag :
    respTaxRate (httpCalculateTransferTax demoDB 0 ceutaResidentBody).1 = some "4.0%"
    ∧ respTax (httpCalculateTransferTax demoDB 0 ceutaResidentBody).1 = some 720
    ∧ exceptTaxRate (calculateTransferTax demoDB 1 (some "Ceuta") (some true) 0).1 = some "2.0%"
    ∧ exceptTax (calculateTransferTax demoDB 1 (some "Ceuta") (some true) 0).1 = some 360 := by
  have h : dbGet demoDB 1 = some demoCar := by decide
  have hrF : resolveRate (jsOrStr (some "Ceuta") "Madrid") demoCar.fiscalPower
      ((none : Option Bool).getD false) = mkRat 4 100 := by decide
  have hrT : resolveRate (jsOrStr (some "Ceuta") "Madrid") demoCar.fiscalPower
      ((some true).getD false) = 1/50 := by
    have h1 : rateAfterSurcharge "Ceuta" (12:ℚ) = mkRat 4 100 := by decide
    simp only [jsOrStr, Option.getD]
    norm_num [demoCar]
    simp [resolveRate, h1]
    norm_num [Rat.mkRat_eq_div]
  refine ⟨?_, ?_, ?_, ?_⟩
  · simp only [httpCalculateTransferTax, ceutaResidentBody, calculateTransferTax, h, respTaxRate]
    rw [hrF, formatPercent1_eval (mkRat 4 100) 40 (by rw [Rat.mkRat_eq_div]; norm_num)]
    decide
  · simp only [httpCalculateTransferTax, ceutaResidentBody, calculateTransferTax, h, respTax]
    rw [hrF, round2_eval _ 72000 (by norm_num [demoCar, Rat.mkRat_eq_div])]
    norm_num
  · simp only [calculateTransferTax, h, exceptTaxRate]
    rw [hrT, formatPercent1_eval (1/50) 20 (by norm_num)]
    decide
  · simp only [calculateTransferTax, h, exceptTax]
    rw [hrT, round2_eval _ 36000 (by norm_num [demoCar])]
    norm_num

/-- Claim C2: the claim states that the displayed SPANISH_REGIONS table is
in non-decreasing order of rate at every adjacent pair.  The list is not:
entries 14 and 15 (1-based) are Canarias at 5.5% followed by Cataluña at
5%, even though the source comments and the rendered header announce
ascending order. -/
theorem rates_table_not_sorted_ascending :
    nondecreasingB ratesTenthsList = false
    ∧ (SPANISH_REGIONS.getD 13 dummyRegion).name = "Canarias"
    ∧ (SPANISH_REGIONS.getD 14 dummyRegion).name = "Cataluña"
    ∧ rateTenths (SPANISH_REGIONS.getD 13 dummyRegion).rate = 55
    ∧ rateTenths (SPANISH_REGIONS.getD 14 dummyRegion).rate = 50 :=
  ⟨by decide, by decide, by decide, by decide, by decide⟩

/-- Claim C3 counterexample: when the calculation call yields a parsed JSON
body that is not a valid result (for example the error payload of a 500
response), the generic error is replied but the session has already been
deleted, not left as it was. -/
theorem calc_invalid_body_deletes_session :
    calculateAndReply (some 1) (some "Madrid") false (CalcOutcome.body none)
      = (SessEff.del, Reply.calcError)
    ∧ SessEff.del ≠ SessEff.keep :=
  ⟨rfl, by decide⟩

/-- Claim C3 (amended): when the calculation call throws or rejects before
a response body is obtained, the generic error message is replied and the
session is untouched (retry by re-sending works); but when the call yields
a body without a valid result, the generic error is replied with the
session already deleted. -/
theorem calc_failure_error_reply_session_effect :
    ∀ (cid : Option ℕ) (region : Option String) (isRes : Bool),
      calculateAndReply cid region isRes CalcOutcome.throwBefore = (SessEff.keep, Reply.calcError)
      ∧ calculateAndReply cid region isRes (CalcOutcome.body none) = (SessEff.del, Reply.calcError) :=
  fun _ _ _ => ⟨rfl, rfl⟩

/-- Claim C4: for every region in the high-power set, the resolved rate is
the fixed 8% rate exactly when fiscalPower strictly exceeds the threshold
15 (otherwise the region's base rate, which is never 8%), and the
high-power note is appended exactly then. -/
theorem high_power_surcharge_iff (region : String) (h : HIGH_POWER_REGIONS.contains region = true)
    (fp : ℚ) (isRes : Bool) :
    (resolveRate region fp isRes = if fp > HIGH_POWER_CV_THRESHOLD then HIGH_POWER_TAX_RATE else lookupRate region)
    ∧ (resolveNotes region fp isRes = if fp > HIGH_POWER_CV_THRESHOLD then [highPowerNote fp] else [])
    ∧ lookupRate region ≠ HIGH_POWER_TAX_RATE := by
  rcases hp_mem region h with rfl | rfl | rfl | rfl <;>
    refine ⟨?_, ?_, by decide⟩ <;>
      simp [resolveRate, rateAfterSurcharge, resolveNotes, HIGH_POWER_REGIONS, HIGH_POWER_CV_THRESHOLD,
        List.contains, List.elem]

/-- Claim C4 witness: Andalucía at fiscal power exactly 15 keeps the base
rate with no note; at 15.01 (= 1501/100) the fixed 8% rate applies and the
note is appended. -/
theorem high_power_surcharge_iff_witness :
    HIGH_POWER_REGIONS.contains "Andalucía" = true
    ∧ resolveRate "Andalucía" 15 false = lookupRate "Andalucía"
    ∧ resolveNotes "Andalucía" 15 false = []
    ∧ resolveRate "Andalucía" (mkRat 1501 100) false = HIGH_POWER_TAX_RATE
    ∧ highPowerNote (mkRat 1501 100) ∈ resolveNotes "Andalucía" (mkRat 1501 100) false := by
  have H15 := high_power_surcharge_iff "Andalucía" (by decide) 15 false
  have H1501 := high_power_surcharge_iff "Andalucía" (by decide) (mkRat 1501 100) false
  have hle : ¬((15:ℚ) > HIGH_POWER_CV_THRESHOLD) := by decide
  have hgt : (mkRat 1501 100) > HIGH_POWER_CV_THRESHOLD := by decide
  refine ⟨by decide, ?_, ?_, ?_, ?_⟩
  · rw [H15.1, if_neg hle]
  · rw [H15.2.1, if_neg hle]
  · rw [H1501.1, if_pos hgt]
  · rw [H1501.2.1, if_pos hgt]
    exact List.mem_singleton_self _

/-- Claim C5: for Ceuta or Melilla with isResident true, the resolved rate
is exactly half the rate after the surcharge step (the halving is applied
after the surcharge check), and since neither territory carries the
surcharge this is 2% for any fiscal power. -/
theorem ceuta_melilla_resident_halves_rate (region : String)
    (h : region = "Ceuta" ∨ region = "Melilla") (fp : ℚ) :
    resolveRate region fp true = rateAfterSurcharge region fp / 2
    ∧ resolveRate region fp true = 2/100 := by
  have h1 : rateAfterSurcharge region fp = mkRat 4 100 := by
    rcases h with rfl | rfl <;>
      · simp [rateAfterSurcharge, HIGH_POWER_REGIONS, List.contains, List.elem]
        decide
  constructor
  · rcases h with rfl | rfl <;>
      · simp [resolveRate]
        ring
  · rcases h with rfl | rfl <;>
      · rw [resolveRate, h1]
        simp
        norm_num [Rat.mkRat_eq_div]

/-- Claim C5 witness: Ceuta with fiscal power 20 and isResident true
resolves to exactly 2%. -/
theorem ceuta_melilla_resident_halves_rate_witness :
    ("Ceuta" = "Ceuta" ∨ "Ceuta" = "Melilla")
    ∧ resolveRate "Ceuta" 20 true = 2/100 :=
  ⟨Or.inl rfl, (ceuta_melilla_resident_halves_rate "Ceuta" (Or.inl rfl) 20).2⟩

/-- Claim C6: for every stored car, the computed tax is the car's fiscal
value times the resolved rate, rounded to 2 decimal places by
`round2` (floor of value-in-cents plus one half, i.e. round-half-up at the
cent boundary). -/
theorem tax_is_rounded_product (db : DB) (carId : ℕ) (regionArg : Option String)
    (isResidentArg : Option Bool) (now : ℤ) (car : DbCar) (h : dbGet db carId = some car) :
    ∃ r, (calculateTransferTax db carId regionArg isResidentArg now).1 = Except.ok r ∧
      r.calculatedTax = round2 (car.fiscalValue * resolveRate (jsOrStr regionArg "Madrid") car.fiscalPower (isResidentArg.getD false)) := by
  simp only [calculateTransferTax, h]
  exact ⟨_, rfl, rfl⟩

/-- Claim C6 witness: fiscal value 18000 in Madrid with isResident false
yields exactly 720 at the 4% rate. -/
theorem tax_is_rounded_product_witness :
    dbGet demoDB 1 = some demoCar
    ∧ (∃ r, (calculateTransferTax demoDB 1 (some "Madrid") (some false) 0).1 = Except.ok r ∧
        r.calculatedTax = round2 (demoCar.fiscalValue * resolveRate (jsOrStr (some "Madrid") "Madrid") demoCar.fiscalPower ((some false).getD false)))
    ∧ round2 (demoCar.fiscalValue * resolveRate (jsOrStr (some "Madrid") "Madrid") demoCar.fiscalPower ((some false).getD false)) = 720 := by
  refine ⟨by decide, tax_is_rounded_product demoDB 1 (some "Madrid") (some false) 0 demoCar (by decide), ?_⟩
  have hr : resolveRate (jsOrStr (some "Madrid") "Madrid") demoCar.fiscalPower
      ((some false).getD false) = mkRat 4 100 := by decide
  rw [hr, round2_eval _ 72000 (by norm_num [demoCar, Rat.mkRat_eq_div])]
  norm_num

/-- Claim C7: the mutation fails exactly when the car id does not resolve
to a stored car; on that failure the database (hence the transfers log) is
unchanged; and an absent region argument defaults to Madrid in the result. -/
theorem notfound_iff_missing_car (db : DB) (carId : ℕ) (regionArg : Option String)
    (isResidentArg : Option Bool) (now : ℤ) :
    ((∃ e, (calculateTransferTax db carId regionArg isResidentArg now).1 = Except.error e) ↔ dbGet db carId = none)
    ∧ (dbGet db carId = none → (calculateTransferTax db carId regionArg isResidentArg now).2 = db)
    ∧ (∀ car, dbGet db carId = some car → regionArg = none →
        ∃ r, (calculateTransferTax db carId regionArg isResidentArg now).1 = Except.ok r ∧ r.region = "Madrid") := by
  cases hd : dbGet db carId with
  | none =>
    refine ⟨⟨fun _ => rfl, fun _ => ⟨"Car not found", by simp only [calculateTransferTax, hd]⟩⟩,
      fun _ => by simp only [calculateTransferTax, hd], ?_⟩
    intro car hcar _
    exact Option.noConfusion hcar
  | some car =>
    refine ⟨⟨?_, ?_⟩, ?_, ?_⟩
    · rintro ⟨e, he⟩
      simp only [calculateTransferTax, hd] at he
      exact Except.noConfusion he
    · intro hnone
      exact Option.noConfusion hnone
    · intro hnone
      exact Option.noConfusion hnone
    · intro car' hcar' hreg
      subst hreg
      simp only [calculateTransferTax, hd]
      exact ⟨_, rfl, rfl⟩

/-- Claim C7 witness: car id 99 is absent, the call leaves the database
unchanged, and a call without a region argument reports region Madrid. -/
theorem notfound_iff_missing_car_witness :
    dbGet demoDB 99 = none
    ∧ (calculateTransferTax demoDB 99 (some "Ceuta") (some true) 5).2 = demoDB
    ∧ dbGet demoDB 1 = some demoCar
    ∧ (∃ r, (calculateTransferTax demoDB 1 none (some false) 5).1 = Except.ok r ∧ r.region = "Madrid") :=
  ⟨by decide,
   (notfound_iff_missing_car demoDB 99 (some "Ceuta") (some true) 5).2.1 (by decide),
   by decide,
   (notfound_iff_missing_car demoDB 1 none (some false) 5).2.2 demoCar (by decide) rfl⟩

/-- Claim C8: for a region string absent from the static rate table, rate
resolution yields the default 4% with no note entries, and the mutation's
result carries no notes field at all (none rather than an empty list) with
the default rate formatted. -/
theorem unknown_region_defaults (region : String) (h : REGIONAL_TAX_RATES.lookup region = none)
    (fp : ℚ) (isRes : Bool) :
    resolveRate region fp isRes = DEFAULT_TAX_RATE
    ∧ resolveNotes region fp isRes = []
    ∧ ∀ (db : DB) (carId : ℕ) (car : DbCar) (isResidentArg : Option Bool) (now : ℤ),
        dbGet db carId = some car →
        ∃ r, (calculateTransferTax db carId (some region) isResidentArg now).1 = Except.ok r ∧
          r.notes = none ∧ r.taxRate = formatPercent1 DEFAULT_TAX_RATE := by
  have hHP : HIGH_POWER_REGIONS.contains region = false := by
    cases hc : HIGH_POWER_REGIONS.contains region
    · rfl
    · exfalso
      rcases hp_mem region hc with rfl | rfl | rfl | rfl <;> exact absurd h (by decide)
  have hC : region ≠ "Ceuta" := by
    rintro rfl; exact absurd h (by decide)
  have hM : region ≠ "Melilla" := by
    rintro rfl; exact absurd h (by decide)
  have hHPmem : region ∉ HIGH_POWER_REGIONS := by simpa using hHP
  have hRateAll : ∀ (fp' : ℚ) (b : Bool), resolveRate region fp' b = DEFAULT_TAX_RATE := by
    intro fp' b
    rw [resolveRate, rateAfterSurcharge, lookupRate, h]
    simp [hHPmem, hC, hM]
  have hNotesAll : ∀ (fp' : ℚ) (b : Bool), resolveNotes region fp' b = [] := by
    intro fp' b
    simp [resolveNotes, hHPmem, hC, hM]
  have hRateM : ∀ (fp' : ℚ) (b : Bool), resolveRate "Madrid" fp' b = DEFAULT_TAX_RATE := by
    intro fp' b
    have hl : lookupRate "Madrid" = DEFAULT_TAX_RATE := by decide
    rw [resolveRate, rateAfterSurcharge, hl]
    simp [HIGH_POWER_REGIONS, List.contains, List.elem]
  have hNotesM : ∀ (fp' : ℚ) (b : Bool), resolveNotes "Madrid" fp' b = [] := by
    intro fp' b
    simp [resolveNotes, HIGH_POWER_REGIONS, List.contains, List.elem]
  refine ⟨hRateAll fp isRes, hNotesAll fp isRes, ?_⟩
  intro db carId car isResidentArg now hcar
  simp only [calculateTransferTax, hcar]
  by_cases hre : region = ""
  · subst hre
    refine ⟨_, rfl, ?_, ?_⟩
    · simp [jsOrStr, hNotesM]
    · simp [jsOrStr, hRateM]
  · have hj : jsOrStr (some region) "Madrid" = region := by simp [jsOrStr, hre]
    refine ⟨_, rfl, ?_, ?_⟩
    · simp [hj, hNotesAll]
    · simp [hj, hRateAll]

/-- Claim C8 witness: the region string Atlantis is not in the table,
resolves to the default 4% with no notes, and the mutation result omits
the notes field. -/
theorem unknown_region_defaults_witness :
    REGIONAL_TAX_RATES.lookup "Atlantis" = none
    ∧ resolveRate "Atlantis" 7 true = DEFAULT_TAX_RATE
    ∧ resolveNotes "Atlantis" 7 true = []
    ∧ (∃ r, (calculateTransferTax demoDB 1 (some "Atlantis") (some true) 0).1 = Except.ok r ∧
        r.notes = none ∧ r.taxRate = formatPercent1 DEFAULT_TAX_RATE) := by
  have h : REGIONAL_TAX_RATES.lookup "Atlantis" = none := by decide
  have H := unknown_region_defaults "Atlantis" h 7 true
  exact ⟨h, H.1, H.2.1, H.2.2 demoDB 1 demoCar (some true) 0 (by decide)⟩

/-- Claim C9: at the year step, a non-command input other than "saltar"
that does not parse to an integer in [1990, 2026] produces the
year re-prompt reply and performs no session write, leaving the stored
session (still at the year step) unchanged. -/
theorem year_invalid_reprompts (session : Session) (text : String)
    (so : Except Unit (List Car)) (co : CalcOutcome)
    (hstep : session.step = Step.year)
    (hcmd : isCommandWord text = false)
    (hskip : text ≠ "saltar")
    (hbad : yearNotValid text = true) :
    onMessage (some session) text so co = (SessEff.keep, Reply.yearInvalid) := by
  obtain ⟨h1, h2, h3⟩ := command_decomp text hcmd
  rw [onMessage]
  simp only [Option.getD, h1, h2, h3, Bool.false_eq_true, if_false]
  rw [dispatch]
  simp only [hstep]
  rw [handleYear.eq_def]
  simp only [hbad]
  rw [if_pos ⟨hskip, trivial⟩]

/-- Claim C9 witness: the input "abc" at the year step re-prompts and
leaves the session untouched. -/
theorem year_invalid_reprompts_witness :
    ({ step := Step.year, maker := some "toyota" } : Session).step = Step.year
    ∧ isCommandWord "abc" = false ∧ "abc" ≠ "saltar" ∧ yearNotValid "abc" = true
    ∧ onMessage (some { step := Step.year, maker := some "toyota" }) "abc" (Except.error ()) CalcOutcome.throwBefore
        = (SessEff.keep, Reply.yearInvalid) :=
  ⟨rfl, by decide, by decide, by decide,
    year_invalid_reprompts { step := Step.year, maker := some "toyota" } "abc"
      (Except.error ()) CalcOutcome.throwBefore rfl (by decide) (by decide) (by decide)⟩

/-- Claim C10: every session write keeps the candidate list bounded by 10
(it is the previous list, absent, or the first ten search results in
order); at the model-selection step a non-command input is accepted exactly
when it parses to n with 1 ≤ n ≤ len(cars), storing cars[n-1]'s id and
moving to the region step, while any other input re-prompts with no
session write. -/
theorem cars_bounded_and_selection (session : Session) (text : String)
    (so : Except Unit (List Car)) (co : CalcOutcome) :
    (∀ s', carsOK session → (onMessage (some session) text so co).1 = SessEff.put s' →
       carsOK s' ∧ (s'.cars = session.cars ∨ s'.cars = none ∨ ∃ cs, so = Except.ok cs ∧ s'.cars = some (cs.take 10)))
    ∧ (session.step = Step.model_selection → isCommandWord text = false →
        ∀ n : ℤ, jsParseInt text = some n → 1 ≤ n → n ≤ ((session.cars.getD []).length : ℤ) →
          onMessage (some session) text so co
            = (SessEff.put (selectSession session n), Reply.carSelected (chosenCar session n)))
    ∧ (session.step = Step.model_selection → isCommandWord text = false →
        (∀ n : ℤ, jsParseInt text = some n → n < 1 ∨ n > ((session.cars.getD []).length : ℤ)) →
          onMessage (some session) text so co
            = (SessEff.keep, Reply.modelInvalid (session.cars.getD []).length)) := by
  refine ⟨?_, ?_, ?_⟩
  · intro s' hok hput
    have hOK := onMessage_carsOK session text so co hok
    rw [hput] at hOK
    exact hOK
  · intro hstep hcmd n hn h1 hlen
    obtain ⟨hc1, hc2, hc3⟩ := command_decomp text hcmd
    rw [onMessage]
    simp only [Option.getD, hc1, hc2, hc3, Bool.false_eq_true, if_false]
    rw [dispatch]
    simp only [hstep]
    simp only [handleModelSelection, hn]
    rw [if_neg (by omega)]
    rfl
  · intro hstep hcmd hbad
    obtain ⟨hc1, hc2, hc3⟩ := command_decomp text hcmd
    rw [onMessage]
    simp only [Option.getD, hc1, hc2, hc3, Bool.false_eq_true, if_false]
    rw [dispatch]
    simp only [hstep]
    cases hp : jsParseInt text with
    | none =>
      simp only [handleModelSelection, hp]
      rfl
    | some n =>
      simp only [handleModelSelection, hp]
      have hd := hbad n hp
      rw [if_pos (by omega)]
      rfl

/-- Claim C10 witness: with two stored candidates, the input "2" selects
the second candidate (id 7) and moves the session to the region step. -/
theorem cars_bounded_and_selection_witness :
    carsOK msSession
    ∧ msSession.step = Step.model_selection
    ∧ isCommandWord "2" = false
    ∧ jsParseInt "2" = some 2
    ∧ (1:ℤ) ≤ 2 ∧ (2:ℤ) ≤ ((msSession.cars.getD []).length : ℤ)
    ∧ onMessage (some msSession) "2" (Except.error ()) CalcOutcome.throwBefore
        = (SessEff.put (selectSession msSession 2), Reply.carSelected (chosenCar msSession 2))
    ∧ (chosenCar msSession 2).id = 7 :=
  ⟨by intro cs hcs; simp [msSession] at hcs; rw [← hcs]; decide,
   rfl, by decide, by decide, by decide, by decide,
   (cars_bounded_and_selection msSession "2" (Except.error ()) CalcOutcome.throwBefore).2.1
     rfl (by decide) 2 (by decide) (by decide) (by decide),
   by decide⟩

end CarBot
